import Mathlib

/-!
Shallow embedding of `src/main.rs` of the dkkdownload repository.

The program is a CLI client for the PDOK DKK download API: it POSTs a
submission request, polls the job status in a loop with a fixed 1000 ms
interval, and on readiness streams the resulting ZIP archive to the output
sink (file or stdout), optionally reporting progress on stderr via `pbr`
progress bars and a `TeeWriter`.

The HTTP transport (`reqwest`) is an external collaborator: each remote
response is modelled as environment-given data (status code, body text,
and the outcome of `json::parse` on that text).  The `json` crate's
`JsonValue` is embedded as `Json` below, together with the operations the
program uses: indexing (`[]`, returning `Null` for missing keys),
`as_str`, `as_u64`, and the `Display` rendering used when the download
URL is built with `format!`.  The observable behaviour of a run —
outcome, bytes written to the output sink, progress-reporter calls, and
sleeps — is collected in `RunResult`.
-/

namespace DKKDownload

/-- Embedding of the `json` crate's `JsonValue` as used by `main.rs`.
Numbers are modelled as integers: the program only reads the integral
`progress` field via `as_u64`. -/
inductive Json where
  | null
  | bool (b : Bool)
  | num (n : Int)
  | str (s : String)
  | arr (elems : List Json)
  | obj (entries : List (String × Json))

/-- Key lookup in a JSON object's entry list: first binding wins,
absence yields `null` (the `json` crate's `Index` returns `&Null`). -/
def lookupEntry : List (String × Json) → String → Json
  | [], _ => .null
  | (k, v) :: rest, key => if k = key then v else lookupEntry rest key

/-- Embedding of `JsonValue`'s `Index` (`resjson["key"]`): object lookup,
`null` on a missing key or a non-object. -/
def Json.get : Json → String → Json
  | .obj entries, key => lookupEntry entries key
  | _, _ => .null

/-- Embedding of `JsonValue::as_str`: the string payload of a string
value, `none` otherwise. -/
def Json.as_str : Json → Option String
  | .str s => some s
  | _ => none

/-- Embedding of `JsonValue::as_u64`: a non-negative integer number
converts, anything else yields `none`. -/
def Json.as_u64 : Json → Option Nat
  | .num n => if 0 ≤ n then some n.toNat else none
  | _ => none

/-- Lower-case hex digit, used for `\u00XX` escapes in the JSON dump. -/
def hexDigit (n : Nat) : Char :=
  if n < 10 then Char.ofNat (48 + n) else Char.ofNat (87 + (n - 10))

/-- JSON string escaping as performed by the `json` crate's serializer. -/
def escapeChar (c : Char) : String :=
  if c = '"' then "\\\""
  else if c = '\\' then "\\\\"
  else if c = Char.ofNat 8 then "\\b"
  else if c = Char.ofNat 9 then "\\t"
  else if c = Char.ofNat 10 then "\\n"
  else if c = Char.ofNat 12 then "\\f"
  else if c = Char.ofNat 13 then "\\r"
  else if c.toNat < 32 then
    String.mk ['\\', 'u', '0', '0', hexDigit (c.toNat / 16), hexDigit (c.toNat % 16)]
  else String.singleton c

def escapeString (s : String) : String :=
  String.join (s.toList.map escapeChar)

mutual
/-- Embedding of `JsonValue::dump` / `json::stringify`: compact JSON
text. -/
def Json.dump : Json → String
  | .null => "null"
  | .bool true => "true"
  | .bool false => "false"
  | .num n => toString n
  | .str s => "\"" ++ escapeString s ++ "\""
  | .arr elems => "[" ++ dumpList elems ++ "]"
  | .obj entries => "\x7b" ++ dumpEntries entries ++ "\x7d"

def dumpList : List Json → String
  | [] => ""
  | [j] => Json.dump j
  | j :: rest => Json.dump j ++ "," ++ dumpList rest

def dumpEntries : List (String × Json) → String
  | [] => ""
  | [(k, v)] => "\"" ++ escapeString k ++ "\":" ++ Json.dump v
  | (k, v) :: rest =>
      "\"" ++ escapeString k ++ "\":" ++ Json.dump v ++ "," ++ dumpEntries rest
end

/-- Embedding of the `json` crate's `Display` for `JsonValue`, used by
`main.rs` in `format!("{}{}", root_url, resjson[..]["href"])`: strings
render without quotes, `null` renders as the text `null`, containers fall
back to `dump`. -/
def Json.display : Json → String
  | .str s => s
  | .num n => toString n
  | .bool true => "true"
  | .bool false => "false"
  | .null => "null"
  | .arr elems => Json.dump (.arr elems)
  | .obj entries => Json.dump (.obj entries)

/-- HTTP verb recorded in `UnexpectedStatusCodeError` (`reqwest::Method`). -/
inductive Verb where
  | POST
  | GET
deriving DecidableEq, Repr

/-- Outcome of `res.text()` followed by `json::parse(&text)` on one
response, as chosen by the environment: the text read can fail, the text
can fail to parse, or it parses to a JSON value.  The raw text is kept
because `UnexpectedStatusCodeError::new` captures `response.text().ok()`. -/
inductive BodyModel where
  | textErr
  | malformed (raw : String)
  | parsed (raw : String) (j : Json)

/-- Embedding of `response.text().ok()` on this body. -/
def BodyModel.textOpt : BodyModel → Option String
  | .textErr => none
  | .malformed raw => some raw
  | .parsed raw _ => some raw

/-- One remote response to the submission POST or a status GET. -/
structure Response where
  status : Nat
  body : BodyModel

/-- The remote response to the download GET: status code, best-effort
body text (for the error path), declared `content_length`, and the byte
stream as the chunk sequence in which `copy_to` consumes it. -/
structure FetchResponse where
  status : Nat
  text : Option String
  contentLength : Option Nat
  chunks : List (List Nat)

/-- Errors surfaced by `run_app` as `Err(..)` (printed, exit code 1). -/
inductive AppError where
  | unexpectedStatus (code : Nat) (verb : Verb) (body : Option String)
  | textReadError
  | jsonParseError
deriving DecidableEq, Repr

/-- How a run ends: `Ok(())`, an error return, a panic (`expect`), or —
for a finite response script that the unbounded loop exhausts while the
remote keeps answering `Processing` — still inside the polling loop. -/
inductive Outcome where
  | ok
  | error (e : AppError)
  | panicked (msg : String)
  | stillPolling
deriving DecidableEq, Repr

/-- Progress-reporter calls made on the stderr progress bars, in order:
`tick`/`set`/`finish` on the polling-phase bar, bar creation with a byte
total and per-chunk byte counts on the download-phase bar.  The download
bar's `finish` has a constructor so that its absence from every trace is
a statement about the program, not about the model. -/
inductive Event where
  | pollTick
  | pollSet (value : Nat)
  | pollFinish
  | downloadStart (total : Nat)
  | bytes (count : Nat)
  | downloadFinish
deriving DecidableEq, Repr

/-- Observable result of one run of `run_app`: outcome, bytes written to
the output sink, progress events, number of `sleep(probing_interval)`
calls, and the URL of the download GET when one was issued. -/
structure RunResult where
  outcome : Outcome
  sink : List Nat
  events : List Event
  sleeps : Nat
  fetchedUrl : Option String
deriving DecidableEq, Repr

/-- `let probing_interval: Duration = Duration::from_millis(1000);` — the
fixed wait between status polls, in milliseconds. -/
def probingIntervalMs : Nat := 1000

def rootUrl : String := "https://downloads.pdok.nl"

def rootApiUrl : String := rootUrl ++ "/kadastralekaart/api/v4_0"

/-- The submission payload built by the `object!` macro in `run_app`:
`featuretypes` from the layer list, the fixed `format` value `gml`, and
`geofilter` from the WKT polygon text. -/
def buildSubmissionBody (layers : List String) (geofilter : String) : Json :=
  .obj [("featuretypes", .arr (layers.map .str)),
        ("format", .str "gml"),
        ("geofilter", .str geofilter)]

/-- `json::stringify(body)` on the submission payload. -/
def jsonSubmissionPayload (layers : List String) (geofilter : String) : String :=
  (buildSubmissionBody layers geofilter).dump

/-- The optional numeric progress extracted from a Processing body:
`json::parse` must succeed and `statusjson["progress"].as_u64()` must be
`Some`; every failure on the way is silently tolerated. -/
def progressOf (body : BodyModel) : Option Nat :=
  match body with
  | .parsed _ j => (j.get "progress").as_u64
  | _ => none

/-- Progress events of one Processing (HTTP 200) poll iteration:
with `--progress` the polling bar ticks, then `set(p)` follows when a
numeric progress field was extracted; without the flag the body is never
read and nothing is emitted. -/
def processingEvents (showProgress : Bool) (body : BodyModel) : List Event :=
  if showProgress then
    .pollTick :: (match progressOf body with
                  | some p => [.pollSet p]
                  | none => [])
  else []

/-- The download phase of `run_app`: GET the download URL; on HTTP 200,
when `--progress` is set and a `content_length` is declared, create the
byte-total progress bar and copy through a `TeeWriter` that mirrors
every chunk written to the sink into the bar; otherwise copy directly.
Any other status code returns `UnexpectedStatusCodeError`.  No `finish`
is invoked on the download bar before `Ok(())` is returned. -/
def downloadPhase (showProgress : Bool) (fetch : FetchResponse) (url : String)
    (events : List Event) (sleeps : Nat) : RunResult :=
  if fetch.status = 200 then
    if showProgress then
      match fetch.contentLength with
      | some len =>
          { outcome := .ok
            sink := fetch.chunks.flatten
            events := events ++ .downloadStart len ::
              fetch.chunks.map (fun c => .bytes c.length)
            sleeps := sleeps
            fetchedUrl := some url }
      | none =>
          { outcome := .ok, sink := fetch.chunks.flatten, events := events,
            sleeps := sleeps, fetchedUrl := some url }
    else
      { outcome := .ok, sink := fetch.chunks.flatten, events := events,
        sleeps := sleeps, fetchedUrl := some url }
  else
    { outcome := .error (.unexpectedStatus fetch.status .GET fetch.text),
      sink := [], events := events, sleeps := sleeps, fetchedUrl := some url }

/-- The polling loop of `run_app`, over the script of status responses:
HTTP 200 emits the processing events, sleeps `probing_interval`, and
continues; HTTP 201 finishes the polling bar (with `--progress`), reads
the body (`?` on text or parse failure), builds the download URL from
`root_url` and the `Display` rendering of `_links.download.href`, and
enters the download phase; any other code returns
`UnexpectedStatusCodeError`.  An exhausted script means the loop was
still running. -/
def pollLoop (showProgress : Bool) (fetch : FetchResponse) :
    List Response → List Event → Nat → RunResult
  | [], events, sleeps =>
      { outcome := .stillPolling, sink := [], events := events,
        sleeps := sleeps, fetchedUrl := none }
  | r :: rest, events, sleeps =>
      if r.status = 200 then
        pollLoop showProgress fetch rest
          (events ++ processingEvents showProgress r.body) (sleeps + 1)
      else if r.status = 201 then
        let events := if showProgress then events ++ [.pollFinish] else events
        match r.body with
        | .textErr =>
            { outcome := .error .textReadError, sink := [], events := events,
              sleeps := sleeps, fetchedUrl := none }
        | .malformed _ =>
            { outcome := .error .jsonParseError, sink := [], events := events,
              sleeps := sleeps, fetchedUrl := none }
        | .parsed _ j =>
            downloadPhase showProgress fetch
              (rootUrl ++ (((j.get "_links").get "download").get "href").display)
              events sleeps
      else
        { outcome := .error (.unexpectedStatus r.status .GET r.body.textOpt),
          sink := [], events := events, sleeps := sleeps, fetchedUrl := none }

/-- `run_app` after CLI parsing, given the environment's responses: the
submission must answer 202 Accepted (else `UnexpectedStatusCodeError`),
its body must read and parse (else the error propagates via `?`), and
`resjson["downloadRequestId"].as_str()` must yield a string — the
program calls `.expect(..)` on it and panics otherwise.  Then the
polling loop runs against the status-response script. -/
def runApp (showProgress : Bool) (submitRes : Response)
    (polls : List Response) (fetch : FetchResponse) : RunResult :=
  if submitRes.status = 202 then
    match submitRes.body with
    | .textErr =>
        { outcome := .error .textReadError, sink := [], events := [],
          sleeps := 0, fetchedUrl := none }
    | .malformed _ =>
        { outcome := .error .jsonParseError, sink := [], events := [],
          sleeps := 0, fetchedUrl := none }
    | .parsed _ j =>
        match (j.get "downloadRequestId").as_str with
        | none =>
            { outcome := .panicked
                "Verkregen downloadRequestId van de PDOK API is geen string.",
              sink := [], events := [], sleeps := 0, fetchedUrl := none }
        | some _ => pollLoop showProgress fetch polls [] 0
  else
    { outcome := .error (.unexpectedStatus submitRes.status .POST
        submitRes.body.textOpt),
      sink := [], events := [], sleeps := 0, fetchedUrl := none }

/-- A submission response the claims use as the well-formed case: 202
Accepted with a string `downloadRequestId`. -/
def submitOk : Response :=
  ⟨202, .parsed "\x7b\"downloadRequestId\":\"abc123\"\x7d"
    (.obj [("downloadRequestId", .str "abc123")])⟩

/-- A ready (201) status response whose body carries the nested
download link `_links.download.href`. -/
def readyOk : Response :=
  ⟨201, .parsed "\x7b\"_links\":\x7b\"download\":\x7b\"href\":\"/dl/abc123.zip\"\x7d\x7d\x7d"
    (.obj [("_links", .obj [("download", .obj [("href", .str "/dl/abc123.zip")])])])⟩

/-- Total byte count reported to the download progress bar: the sum of
the per-chunk counts mirrored by the `TeeWriter`. -/
def reportedBytes (events : List Event) : Nat :=
  (events.map (fun e => match e with | .bytes n => n | _ => 0)).sum

/-- The reading of the submission payload prescribed by the documented
JSON shape: `featuretypes` as a string array. -/
def asStringList : List Json → Option (List String)
  | [] => some []
  | j :: rest =>
      match j.as_str, asStringList rest with
      | some s, some ss => some (s :: ss)
      | _, _ => none

def readFeaturetypes (j : Json) : Option (List String) :=
  match j.get "featuretypes" with
  | .arr elems => asStringList elems
  | _ => none

def readGeofilter (j : Json) : Option String :=
  (j.get "geofilter").as_str

/-- Relation between two status responses that have the same status code
and, off the Processing (200) code, the same body. -/
def BodyAgreesOffProcessing (a b : Response) : Prop :=
  a.status = b.status ∧ (a.status ≠ 200 → a.body = b.body)

theorem processingEvents_false (body : BodyModel) :
    processingEvents false body = [] := rfl

theorem pollLoop_cons_processing (sp : Bool) (fetch0 : FetchResponse)
    (r : Response) (rest : List Response) (events : List Event)
    (sleeps : Nat) (h : r.status = 200) :
    pollLoop sp fetch0 (r :: rest) events sleeps
      = pollLoop sp fetch0 rest (events ++ processingEvents sp r.body)
          (sleeps + 1) := by
  simp [pollLoop, h]

theorem pollLoop_processing_script (sp : Bool) (fetch0 : FetchResponse)
    (procs rest : List Response) (events : List Event) (sleeps : Nat)
    (h : ∀ r ∈ procs, r.status = 200) :
    pollLoop sp fetch0 (procs ++ rest) events sleeps
      = pollLoop sp fetch0 rest
          (events ++ (procs.map (fun r => processingEvents sp r.body)).flatten)
          (sleeps + procs.length) := by
  induction procs generalizing events sleeps with
  | nil => simp
  | cons r procs ih =>
      have hr : r.status = 200 := h r (List.mem_cons_self r procs)
      have hrest : ∀ x ∈ procs, x.status = 200 :=
        fun x hx => h x (List.mem_cons_of_mem r hx)
      rw [List.cons_append, pollLoop_cons_processing sp fetch0 r _ _ _ hr,
          ih _ _ hrest]
      have harith : sleeps + 1 + procs.length = sleeps + (r :: procs).length := by
        simp [List.length_cons]
        omega
      rw [List.map_cons, List.flatten_cons, ← List.append_assoc, harith]

theorem runApp_submitOk (sp : Bool) (polls : List Response)
    (fetch0 : FetchResponse) :
    runApp sp submitOk polls fetch0 = pollLoop sp fetch0 polls [] 0 := rfl

theorem downloadPhase_sleeps_url (sp : Bool) (fetch0 : FetchResponse)
    (url : String) (events : List Event) (sleeps : Nat) :
    (downloadPhase sp fetch0 url events sleeps).sleeps = sleeps ∧
    (downloadPhase sp fetch0 url events sleeps).fetchedUrl = some url := by
  unfold downloadPhase
  by_cases h : fetch0.status = 200
  · rw [if_pos h]
    cases sp
    · simp
    · cases fetch0.contentLength <;> simp
  · rw [if_neg h]
    simp

theorem downloadPhase_sink_of_ok (sp : Bool) (fetch0 : FetchResponse)
    (url : String) (events : List Event) (sleeps : Nat)
    (h : fetch0.status = 200) :
    (downloadPhase sp fetch0 url events sleeps).sink = fetch0.chunks.flatten := by
  unfold downloadPhase
  rw [if_pos h]
  cases sp
  · simp
  · cases fetch0.contentLength <;> simp

/-- C2: for every HTTP status code other than the single success code of
each call (202 for the submission POST, 200/201 for the status GET, 200
for the download GET), the call returns the classified
`UnexpectedStatusCodeError` carrying the code, the originating verb, and
the best-effort response body; it never panics and never silently
succeeds. -/
theorem unexpectedStatus_classified (sp : Bool) (fetch0 : FetchResponse)
    (polls : List Response) :
    (∀ (code : Nat) (body : BodyModel), code ≠ 202 →
       runApp sp ⟨code, body⟩ polls fetch0 =
         ⟨.error (.unexpectedStatus code .POST body.textOpt),
          [], [], 0, none⟩) ∧
    (∀ (procs : List Response) (code : Nat) (body : BodyModel),
       (∀ r ∈ procs, r.status = 200) → code ≠ 200 → code ≠ 201 →
       (runApp sp submitOk (procs ++ [⟨code, body⟩]) fetch0).outcome
         = .error (.unexpectedStatus code .GET body.textOpt)) ∧
    (∀ (code : Nat) (text : Option String) (cl : Option Nat)
       (chunks : List (List Nat)), code ≠ 200 →
       (runApp sp submitOk [readyOk] ⟨code, text, cl, chunks⟩).outcome
         = .error (.unexpectedStatus code .GET text) ∧
       (runApp sp submitOk [readyOk] ⟨code, text, cl, chunks⟩).sink = []) := by
  refine ⟨?_, ?_, ?_⟩
  · intro code body h
    simp [runApp, h]
  · intro procs code body hprocs h200 h201
    rw [runApp_submitOk, pollLoop_processing_script sp fetch0 procs _ _ _ hprocs]
    simp [pollLoop, h200, h201]
  · intro code text cl chunks h
    rw [runApp_submitOk]
    simp [pollLoop, readyOk, downloadPhase, h]

theorem unexpectedStatus_classified_witness :
    runApp false ⟨500, .malformed "Internal Server Error"⟩ []
        ⟨200, none, none, []⟩ =
      ⟨.error (.unexpectedStatus 500 .POST (some "Internal Server Error")),
       [], [], 0, none⟩ ∧
    (runApp false submitOk ([⟨200, .textErr⟩] ++ [⟨503, .textErr⟩])
        ⟨200, none, none, []⟩).outcome
      = .error (.unexpectedStatus 503 .GET none) ∧
    (runApp false submitOk [readyOk] ⟨404, some "Not Found", none, [[1]]⟩).outcome
      = .error (.unexpectedStatus 404 .GET (some "Not Found")) := by
  refine ⟨?_, ?_, ?_⟩
  · exact (unexpectedStatus_classified false ⟨200, none, none, []⟩ []).1
      500 (.malformed "Internal Server Error") (by decide)
  · exact (unexpectedStatus_classified false ⟨200, none, none, []⟩ []).2.1
      [⟨200, .textErr⟩] 503 .textErr
      (by intro r hr; rw [List.mem_singleton.mp hr]) (by decide) (by decide)
  · exact ((unexpectedStatus_classified false ⟨200, none, none, []⟩ []).2.2
      404 (some "Not Found") none [[1]] (by decide)).1

/-- C4: a script of n Processing (HTTP 200) responses followed by one
ready (HTTP 201) response drives exactly n sleeps of the fixed 1000 ms
probing interval and then proceeds to the download GET; while the remote
only returns Processing the loop never terminates on its own. -/
theorem polling_exits_exactly_on_ready (sp : Bool) (fetch0 : FetchResponse)
    (procs : List Response) (h : ∀ r ∈ procs, r.status = 200) :
    probingIntervalMs = 1000 ∧
    (runApp sp submitOk procs fetch0).outcome = .stillPolling ∧
    (runApp sp submitOk procs fetch0).sleeps = procs.length ∧
    (runApp sp submitOk procs fetch0).fetchedUrl = none ∧
    (runApp sp submitOk (procs ++ [readyOk]) fetch0).sleeps = procs.length ∧
    (runApp sp submitOk (procs ++ [readyOk]) fetch0).fetchedUrl
      = some (rootUrl ++ "/dl/abc123.zip") := by
  have e1 := pollLoop_processing_script sp fetch0 procs [] [] 0 h
  rw [List.append_nil] at e1
  have e2 := pollLoop_processing_script sp fetch0 procs [readyOk] [] 0 h
  rw [runApp_submitOk, runApp_submitOk, e1, e2]
  refine ⟨rfl, ?_⟩
  simp [pollLoop, readyOk]
  exact downloadPhase_sleeps_url sp fetch0 _ _ _

theorem polling_exits_exactly_on_ready_witness :
    probingIntervalMs = 1000 ∧
    (runApp true submitOk (List.replicate 3 ⟨200, .textErr⟩)
        ⟨200, none, some 3, [[1, 2], [3]]⟩).outcome = .stillPolling ∧
    (runApp true submitOk (List.replicate 3 ⟨200, .textErr⟩)
        ⟨200, none, some 3, [[1, 2], [3]]⟩).sleeps
      = (List.replicate 3 (⟨200, .textErr⟩ : Response)).length ∧
    (runApp true submitOk (List.replicate 3 ⟨200, .textErr⟩)
        ⟨200, none, some 3, [[1, 2], [3]]⟩).fetchedUrl = none ∧
    (runApp true submitOk (List.replicate 3 ⟨200, .textErr⟩ ++ [readyOk])
        ⟨200, none, some 3, [[1, 2], [3]]⟩).sleeps
      = (List.replicate 3 (⟨200, .textErr⟩ : Response)).length ∧
    (runApp true submitOk (List.replicate 3 ⟨200, .textErr⟩ ++ [readyOk])
        ⟨200, none, some 3, [[1, 2], [3]]⟩).fetchedUrl
      = some (rootUrl ++ "/dl/abc123.zip") :=
  polling_exits_exactly_on_ready true ⟨200, none, some 3, [[1, 2], [3]]⟩
    (List.replicate 3 ⟨200, .textErr⟩)
    (fun r hr => by rw [List.eq_of_mem_replicate hr])

/-- C1 (counterexample): a ready (201) response whose valid JSON body
lacks the nested `_links.download.href` field does not produce a
`MalformedResponse`-style hard error — the program proceeds to the
download phase, issuing the fetch GET against the service root with the
`Display` rendering of JSON `null` appended. -/
theorem ready_missing_link_counterexample :
    (runApp false submitOk [⟨201, .parsed "\x7b\x7d" (.obj [])⟩]
        ⟨404, some "Not Found", none, []⟩).fetchedUrl
      = some "https://downloads.pdok.nlnull" ∧
    (runApp false submitOk [⟨201, .parsed "\x7b\x7d" (.obj [])⟩]
        ⟨404, some "Not Found", none, []⟩).outcome
      = .error (.unexpectedStatus 404 .GET (some "Not Found")) := by
  constructor <;> rfl

/-- C1 (amended): on a ready (201) poll response, a body that cannot be
read or parsed is a hard error (`?`-propagated) and no download GET is
issued; a valid JSON body whose nested download-link field is missing
(so that indexing yields `null`) raises no error — the program proceeds
to the download phase with the URL `root_url ++ "null"`. -/
theorem ready_body_handling (sp : Bool) (raw : String)
    (fetch0 : FetchResponse) (j : Json)
    (h : ((j.get "_links").get "download").get "href" = .null) :
    (runApp sp submitOk [⟨201, .textErr⟩] fetch0).outcome
      = .error .textReadError ∧
    (runApp sp submitOk [⟨201, .textErr⟩] fetch0).fetchedUrl = none ∧
    (runApp sp submitOk [⟨201, .malformed raw⟩] fetch0).outcome
      = .error .jsonParseError ∧
    (runApp sp submitOk [⟨201, .malformed raw⟩] fetch0).fetchedUrl = none ∧
    (runApp sp submitOk [⟨201, .parsed raw j⟩] fetch0).fetchedUrl
      = some (rootUrl ++ "null") := by
  rw [runApp_submitOk, runApp_submitOk, runApp_submitOk]
  refine ⟨?_, ?_, ?_, ?_, ?_⟩ <;> simp [pollLoop, h, Json.display]
  exact (downloadPhase_sleeps_url sp fetch0 _ _ _).2

theorem ready_body_handling_witness :
    (runApp false submitOk [⟨201, .textErr⟩] ⟨200, none, none, []⟩).outcome
      = .error .textReadError ∧
    (runApp false submitOk [⟨201, .textErr⟩] ⟨200, none, none, []⟩).fetchedUrl
      = none ∧
    (runApp false submitOk [⟨201, .malformed "oops"⟩]
        ⟨200, none, none, []⟩).outcome = .error .jsonParseError ∧
    (runApp false submitOk [⟨201, .malformed "oops"⟩]
        ⟨200, none, none, []⟩).fetchedUrl = none ∧
    (runApp false submitOk [⟨201, .parsed "\x7b\x7d" (.obj [])⟩]
        ⟨200, none, none, []⟩).fetchedUrl = some (rootUrl ++ "null") :=
  ready_body_handling false "oops" ⟨200, none, none, []⟩ (.obj []) rfl

/-- C3 (counterexample): a 202 Accepted submission response whose valid
JSON body lacks a string-valued `downloadRequestId` makes the program
panic (via `.expect`) with a fixed message — it does not return a
`MalformedResponse`-style error value. -/
theorem submit_missing_id_counterexample :
    (runApp false ⟨202, .parsed "\x7b\x7d" (.obj [])⟩ []
        ⟨200, none, none, []⟩).outcome
      = .panicked
          "Verkregen downloadRequestId van de PDOK API is geen string." := rfl

/-- C3 (amended): if the submission call returns 202 Accepted but
`resjson["downloadRequestId"].as_str()` yields no string (field absent
or not a string), the program panics with the fixed message of the
`.expect` call instead of returning an error; nothing is polled, fetched
or written. -/
theorem submit_missing_id_panics (sp : Bool) (polls : List Response)
    (fetch0 : FetchResponse) (raw : String) (j : Json)
    (h : (j.get "downloadRequestId").as_str = none) :
    runApp sp ⟨202, .parsed raw j⟩ polls fetch0 =
      ⟨.panicked "Verkregen downloadRequestId van de PDOK API is geen string.",
       [], [], 0, none⟩ := by
  simp [runApp, h]

theorem submit_missing_id_panics_witness :
    runApp false
        ⟨202, .parsed "\x7b\"downloadRequestId\":42\x7d"
          (.obj [("downloadRequestId", .num 42)])⟩ []
        ⟨200, none, none, []⟩ =
      ⟨.panicked "Verkregen downloadRequestId van de PDOK API is geen string.",
       [], [], 0, none⟩ :=
  submit_missing_id_panics false [] ⟨200, none, none, []⟩
    "\x7b\"downloadRequestId\":42\x7d" (.obj [("downloadRequestId", .num 42)]) rfl

theorem reportedBytes_chunkEvents (chunks : List (List Nat)) :
    reportedBytes (chunks.map (fun c => .bytes c.length))
      = chunks.flatten.length := by
  induction chunks with
  | nil => rfl
  | cons c rest ih =>
      simp only [List.map_cons, reportedBytes, List.sum_cons,
        List.flatten_cons, List.length_append] at *
      omega

/-- C5: in the teed download path (progress requested and a content
length declared), the cumulative byte count mirrored to the download
progress bar by the `TeeWriter` equals the total number of bytes written
to the output sink, for every stream — including the empty one —
delivered in any chunking. -/
theorem reported_equals_sink (len : Nat) (chunks : List (List Nat)) :
    (runApp true submitOk [readyOk] ⟨200, none, some len, chunks⟩).outcome
      = .ok ∧
    reportedBytes
        (runApp true submitOk [readyOk] ⟨200, none, some len, chunks⟩).events
      = (runApp true submitOk [readyOk]
          ⟨200, none, some len, chunks⟩).sink.length := by
  rw [runApp_submitOk]
  simp [pollLoop, readyOk, downloadPhase, reportedBytes]
  have := reportedBytes_chunkEvents chunks
  simp [reportedBytes] at this
  omega

/-- C6: on a Processing (HTTP 200) poll response with progress enabled,
the polling bar always ticks; when the body parses and carries a numeric
`progress` field the bar is set to exactly that value, and when the
field is absent or the body unreadable or malformed no error occurs and
the tick still happened. -/
theorem processing_progress_reporting (body : BodyModel)
    (fetch0 : FetchResponse) :
    (runApp true submitOk [⟨200, body⟩] fetch0).outcome = .stillPolling ∧
    (∀ p, progressOf body = some p →
      (runApp true submitOk [⟨200, body⟩] fetch0).events
        = [.pollTick, .pollSet p]) ∧
    (progressOf body = none →
      (runApp true submitOk [⟨200, body⟩] fetch0).events = [.pollTick]) := by
  rw [runApp_submitOk,
      pollLoop_cons_processing true fetch0 ⟨200, body⟩ [] [] 0 rfl]
  refine ⟨rfl, ?_, ?_⟩
  · intro p hp
    simp [pollLoop, processingEvents, hp]
  · intro hp
    simp [pollLoop, processingEvents, hp]

theorem processing_progress_reporting_witness :
    (runApp true submitOk
        [⟨200, .parsed "\x7b\"progress\":55\x7d" (.obj [("progress", .num 55)])⟩]
        ⟨200, none, none, []⟩).events = [.pollTick, .pollSet 55] ∧
    (runApp true submitOk [⟨200, .malformed "garbage"⟩]
        ⟨200, none, none, []⟩).events = [.pollTick] :=
  ⟨(processing_progress_reporting
      (.parsed "\x7b\"progress\":55\x7d" (.obj [("progress", .num 55)]))
      ⟨200, none, none, []⟩).2.1 55 rfl,
   (processing_progress_reporting (.malformed "garbage")
      ⟨200, none, none, []⟩).2.2 rfl⟩

/-- C7 (counterexample): a fully successful teed download (progress
enabled, content length declared, whole stream copied) returns `Ok(())`
without any completion call on the download progress bar — no `finish`
event for the download display occurs in the trace. -/
theorem download_completion_counterexample :
    (runApp true submitOk [readyOk] ⟨200, none, some 3, [[1, 2], [3]]⟩).outcome
      = .ok ∧
    Event.downloadFinish ∉
      (runApp true submitOk [readyOk] ⟨200, none, some 3, [[1, 2], [3]]⟩).events := by
  constructor
  · rfl
  · decide

/-- C7 (amended): on a successful teed download the polling-phase
progress display is finalized (`finish` on the polling bar) when the
ready response arrives, before the fetch; the download progress bar then
records its start and the streamed bytes, but no completion callback is
invoked on it before `run_app` returns success. -/
theorem download_completion_events (len : Nat) (chunks : List (List Nat)) :
    (runApp true submitOk [readyOk] ⟨200, none, some len, chunks⟩).outcome
      = .ok ∧
    (runApp true submitOk [readyOk] ⟨200, none, some len, chunks⟩).events
      = .pollFinish :: .downloadStart len ::
          chunks.map (fun c => .bytes c.length) ∧
    Event.downloadFinish ∉
      (runApp true submitOk [readyOk] ⟨200, none, some len, chunks⟩).events := by
  rw [runApp_submitOk]
  refine ⟨rfl, ?_, ?_⟩ <;> simp [pollLoop, readyOk, downloadPhase]

theorem asStringList_map_str (layers : List String) :
    asStringList (layers.map .str) = some layers := by
  induction layers with
  | nil => rfl
  | cons s rest ih => simp [asStringList, Json.as_str, ih]

/-- C8: for every request — any non-empty layer list and any polygon
string — the submission payload built by `run_app` deserializes under
the documented JSON shape (`featuretypes` as a string array, `format`
the constant `gml`, `geofilter` a string) back into the same
feature-type list and the same geofilter string. -/
theorem submission_roundtrip (layers : List String) (geofilter : String)
    (_h : layers ≠ []) :
    readFeaturetypes (buildSubmissionBody layers geofilter) = some layers ∧
    readGeofilter (buildSubmissionBody layers geofilter) = some geofilter ∧
    (buildSubmissionBody layers geofilter).get "format" = .str "gml" := by
  refine ⟨?_, rfl, rfl⟩
  show asStringList (layers.map .str) = some layers
  exact asStringList_map_str layers

theorem submission_roundtrip_witness :
    readFeaturetypes (buildSubmissionBody ["perceel", "pand"]
        "POLYGON((0 0,1 0,1 1,0 0))") = some ["perceel", "pand"] ∧
    readGeofilter (buildSubmissionBody ["perceel", "pand"]
        "POLYGON((0 0,1 0,1 1,0 0))") = some "POLYGON((0 0,1 0,1 1,0 0))" ∧
    (buildSubmissionBody ["perceel", "pand"]
        "POLYGON((0 0,1 0,1 1,0 0))").get "format" = .str "gml" :=
  submission_roundtrip ["perceel", "pand"] "POLYGON((0 0,1 0,1 1,0 0))"
    (by decide)

/-- C9: the teed download path (progress enabled and content length
known) and the direct download path (progress disabled or content length
unknown) write byte-for-byte identical content to the output sink: for
every fetched chunk stream the sink's final contents are the
concatenated stream bytes, whatever the progress flag and declared
length. -/
theorem sink_contents_path_independent (sp : Bool) (text : Option String)
    (cl : Option Nat) (chunks : List (List Nat)) :
    (runApp sp submitOk [readyOk] ⟨200, text, cl, chunks⟩).sink
      = chunks.flatten ∧
    (runApp sp submitOk [readyOk] ⟨200, text, cl, chunks⟩).outcome = .ok := by
  rw [runApp_submitOk]
  constructor
  · simp only [pollLoop, readyOk]
    exact downloadPhase_sink_of_ok sp ⟨200, text, cl, chunks⟩ _ _ _ rfl
  · simp [pollLoop, readyOk, downloadPhase]
    cases sp
    · simp
    · cases cl <;> simp

theorem pollLoop_congr_bodies (fetch0 : FetchResponse)
    (polls1 polls2 : List Response)
    (h : List.Forall₂ BodyAgreesOffProcessing polls1 polls2)
    (events : List Event) (sleeps : Nat) :
    pollLoop false fetch0 polls1 events sleeps
      = pollLoop false fetch0 polls2 events sleeps := by
  induction h generalizing events sleeps with
  | nil => rfl
  | @cons a b l1 l2 hab htail ih =>
      obtain ⟨hstatus, hbody⟩ := hab
      by_cases h200 : a.status = 200
      · rw [pollLoop_cons_processing false fetch0 a _ _ _ h200,
            pollLoop_cons_processing false fetch0 b _ _ _ (hstatus ▸ h200),
            processingEvents_false, processingEvents_false, ih]
      · have h200b : ¬b.status = 200 := by rw [← hstatus]; exact h200
        have hb : a.body = b.body := hbody h200
        simp only [pollLoop]
        rw [if_neg h200, if_neg h200b, hstatus, hb]

/-- C10: with the progress flag absent, the body of a Processing
(HTTP 200) status response is never read or parsed — two runs whose poll
scripts have the same status codes and agree on all bodies except those
of the 200 responses produce the same run result entirely: same sink
contents, same outcome, same events, same sleeps, same download URL. -/
theorem processing_bodies_noninterference (submitRes : Response)
    (fetch0 : FetchResponse) (polls1 polls2 : List Response)
    (h : List.Forall₂ BodyAgreesOffProcessing polls1 polls2) :
    runApp false submitRes polls1 fetch0
      = runApp false submitRes polls2 fetch0 := by
  by_cases hs : submitRes.status = 202
  · cases hb : submitRes.body with
    | textErr => simp [runApp, hs, hb]
    | malformed raw => simp [runApp, hs, hb]
    | parsed raw j =>
        cases hid : (j.get "downloadRequestId").as_str with
        | none => simp [runApp, hs, hb, hid]
        | some s =>
            simp only [runApp, hs, hb, hid, if_pos]
            exact pollLoop_congr_bodies fetch0 polls1 polls2 h [] 0
  · simp [runApp, hs]

theorem processing_bodies_noninterference_witness :
    runApp false submitOk [⟨200, .malformed "AAAA"⟩, readyOk]
        ⟨200, none, none, [[7]]⟩
      = runApp false submitOk
          [⟨200, .parsed "\x7b\"progress\":10\x7d" (.obj [("progress", .num 10)])⟩,
           readyOk] ⟨200, none, none, [[7]]⟩ :=
  processing_bodies_noninterference submitOk ⟨200, none, none, [[7]]⟩ _ _
    (List.Forall₂.cons ⟨rfl, fun hc => absurd rfl hc⟩
      (List.Forall₂.cons ⟨rfl, fun _ => rfl⟩ List.Forall₂.nil))

end DKKDownload
